import Mathlib

/-!
# Verification of the contract-backed validator set (`ethcore/src/engines/validator_set/contract.rs`)

Shallow embedding of the `ValidatorContract` decorator and its autogenerated
`provider::Contract` ABI bridge.  External collaborators (the
`ValidatorSafeContract` delegate, the `ethabi` codec, the blockchain client)
are modelled by their interfaces, as the spec prescribes; the decorator and
provider logic are translated statement by statement from the source.
-/

namespace Parity

/-- A 20-byte chain account identifier (`util::Address`, i.e. `H160`).
Bytes are `Nat`s; the fixed width is carried as an invariant. -/
structure Address where
  bytes : List Nat
  len20 : bytes.length = 20

instance : DecidableEq Address := fun a b =>
  if h : a.bytes = b.bytes then
    .isTrue (by cases a; cases b; simpa using h)
  else
    .isFalse (by intro hab; exact h (congrArg Address.bytes hab))

/-- Hex rendering of one byte, two lowercase hex digits. -/
def byteToHex (b : Nat) : String :=
  String.mk [Nat.digitChar (b / 16), Nat.digitChar (b % 16)]

/-- Rendering of an address as in Rust `format!("{}", address)` for `H160`:
the 40 lowercase hex characters of its bytes. -/
def Address.hex (a : Address) : String :=
  String.join (a.bytes.map byteToHex)

/-! ## Model of the external `ethabi` crate (consumed as a library)

The spec treats ABI machinery as a data-driven table: function name →
selector → argument/return shape.  Only the `address` parameter type occurs
in the embedded interface. -/

/-- ABI parameter types occurring in the provider interface. -/
inductive ParamType where
  | address
deriving DecidableEq

/-- ABI argument/return tokens (`ethabi::Token`) for the types above. -/
inductive Token where
  | address (a : Address)
deriving DecidableEq

/-- The ABI type of a token. -/
def Token.typeOf : Token → ParamType
  | .address _ => .address

/-- ABI word size in bytes. -/
def abiWordSize : Nat := 32

/-- ABI encoding of one token into one 32-byte word: a 20-byte address is
left-padded with 12 zero bytes. -/
def encodeToken : Token → List Nat
  | .address a => List.replicate 12 0 ++ a.bytes

/-- One entry of the parsed function table (`ethabi::Function`): name,
4-byte selector (first four bytes of the signature hash, computed by the
external library and recorded here as a constant), input and output types. -/
structure AbiFunction where
  name : String
  selector : List Nat
  inputs : List ParamType
  outputs : List ParamType
deriving DecidableEq

/-- The 4-byte selector of `reportMalicious(address)`.  The hash computation
lives in the external ABI library; the model fixes it as an abstract
4-byte constant distinct from the `reportBenign` one. -/
def reportMaliciousSelector : List Nat := [17, 102, 228, 234]

/-- The 4-byte selector of `reportBenign(address)` (abstract constant,
see `reportMaliciousSelector`). -/
def reportBenignSelector : List Nat := [53, 144, 133, 241]

/-- `ethabi::Function::encode_call`: check the argument tokens against the
declared input types, then emit selector ++ encoded arguments. -/
def AbiFunction.encode_call (f : AbiFunction) (tokens : List Token) :
    Except String (List Nat) :=
  if tokens.map Token.typeOf = f.inputs then
    .ok (f.selector ++ (tokens.map encodeToken).flatten)
  else
    .error "Invalid argument types"

/-- Decoding a sequence of ABI words against declared types
(`ethabi` decoder): each `address` output consumes one 32-byte word;
trailing bytes are ignored, and an empty type list always succeeds. -/
def decodeParams : List ParamType → List Nat → Except String (List Token)
  | [], _ => .ok []
  | .address :: rest, data =>
    if h : abiWordSize ≤ data.length then
      match decodeParams rest (data.drop abiWordSize) with
      | .ok ts =>
        .ok (Token.address ⟨(data.take abiWordSize).drop 12, by
          simp only [abiWordSize] at h ⊢
          simp [List.length_drop, List.length_take]
          omega⟩ :: ts)
      | .error e => .error e
    else
      .error "Invalid data"

/-- `ethabi::Function::decode_output`: decode returned bytes against the
declared output types. -/
def AbiFunction.decode_output (f : AbiFunction) (data : List Nat) :
    Except String (List Token) :=
  decodeParams f.outputs data

/-- `ethabi::Contract::function(name)`: look the named function up in the
parsed table; absence is an error string (`as_string` of the library
error). -/
def abiFunctionLookup (fns : List AbiFunction) (n : String) :
    Except String AbiFunction :=
  match fns.find? (fun f => f.name == n) with
  | some f => .ok f
  | none => .error ("Invalid name: " ++ n)

/-! ## Model of the blockchain client and the transport closure -/

/-- The live client behind the `Weak<Client>` handle held by the transport
closure.  `tag` identifies the client (model instrumentation, used to state
which transport a call reaches); `alive` is the outcome of
`Weak::upgrade` at invocation time; `transact` is
`Client::transact_contract`, returning an abstract transaction handle or a
submission error. -/
structure ClientModel where
  tag : Nat
  alive : Bool
  transact : Address → List Nat → Except String Nat

/-- The transacting closure built in `ValidatorContract::register_contract`
(lines 79–83): upgrade the weak client (`"No client!"` on failure), submit
the call data via `transact_contract` (mapping a submission error `e` to
`"Transaction import error: " ++ e`), and discard the submission result,
returning `Default::default()` — the empty byte vector. -/
def transactClosure (client : ClientModel) (a : Address) (d : List Nat) :
    Except String (List Nat) :=
  match (if client.alive then some client else none) with
  | none => .error "No client!"
  | some c =>
    match c.transact a d with
    | .error e => .error ("Transaction import error: " ++ e)
    | .ok _ => .ok []

/-- A transport closure as stored in the provider (`do_call`), with a tag
recording which client it was built from (model instrumentation for trace
statements). -/
structure Transport where
  tag : Nat
  run : Address → List Nat → Except String (List Nat)

/-- A record of one invocation of the transport: which transport, the
contract address passed, and the call data passed. -/
structure CallEvent where
  tag : Nat
  toAddr : Address
  data : List Nat
deriving DecidableEq

/-! ## The provider (`mod provider`, autogenerated ABI bridge) -/

/-- `provider::Contract`: the parsed two-function table, the bound contract
address, and the boxed transport closure. -/
structure ProviderContract where
  contract : List AbiFunction
  address : Address
  do_call : Transport

/-- The parse result of the embedded JSON interface: exactly
`reportMalicious(address)` and `reportBenign(address)`, both with no
outputs (`Interface::load` of the autogenerated constant). -/
def providerInterface : List AbiFunction :=
  [ { name := "reportMalicious", selector := reportMaliciousSelector,
      inputs := [.address], outputs := [] },
    { name := "reportBenign", selector := reportBenignSelector,
      inputs := [.address], outputs := [] } ]

/-- `provider::Contract::new(address, do_call)`. -/
def ProviderContract.new (address : Address) (do_call : Transport) :
    ProviderContract :=
  { contract := providerInterface, address := address, do_call := do_call }

/-- `provider::Contract::report_malicious`: look up `"reportMalicious"`,
encode the call with the validator address token, invoke the transport,
decode the returned bytes against the (empty) output schema.  The second
component records the transport invocations performed (empty when a step
before the transport fails). -/
def ProviderContract.report_malicious (self : ProviderContract)
    (validator : Address) : Except String Unit × List CallEvent :=
  match abiFunctionLookup self.contract "reportMalicious" with
  | .error e => (.error e, [])
  | .ok call =>
    match call.encode_call [Token.address validator] with
    | .error e => (.error e, [])
    | .ok data =>
      match self.do_call.run self.address data with
      | .error e => (.error e, [⟨self.do_call.tag, self.address, data⟩])
      | .ok out =>
        match call.decode_output out with
        | .error e => (.error e, [⟨self.do_call.tag, self.address, data⟩])
        | .ok _ => (.ok (), [⟨self.do_call.tag, self.address, data⟩])

/-- `provider::Contract::report_benign`: identical shape with
`"reportBenign"`. -/
def ProviderContract.report_benign (self : ProviderContract)
    (validator : Address) : Except String Unit × List CallEvent :=
  match abiFunctionLookup self.contract "reportBenign" with
  | .error e => (.error e, [])
  | .ok call =>
    match call.encode_call [Token.address validator] with
    | .error e => (.error e, [])
    | .ok data =>
      match self.do_call.run self.address data with
      | .error e => (.error e, [⟨self.do_call.tag, self.address, data⟩])
      | .ok out =>
        match call.decode_output out with
        | .error e => (.error e, [⟨self.do_call.tag, self.address, data⟩])
        | .ok _ => (.ok (), [⟨self.do_call.tag, self.address, data⟩])

/-! ## The logging surface -/

/-- Log severity levels used by the decorator's logging macros. -/
inductive LogLevel where
  | warn
  | info
deriving DecidableEq

/-- One structured log line: its level and its formatted message. -/
structure LogEntry where
  level : LogLevel
  msg : String
deriving DecidableEq

/-- `sub` occurs as a substring of `s`. -/
def containsSubstr (s sub : String) : Prop :=
  ∃ pre post : String, s = pre ++ sub ++ post

/-! ## The delegate and the decorator (`ValidatorContract`) -/

/-- Modelled from the spec: `ValidatorSafeContract` (the delegate) lives in
`safe_contract.rs`, outside this file; the spec consumes it purely via four
operations — membership test, indexed lookup, count, and a registration
hook — plus its immutable `address` field (read at line 84 of the source).
Its query behavior is therefore carried as data; `registeredClient` records
the hook invocations (`register_contract` forwards the weak client to it). -/
structure ValidatorSafeContract where
  address : Address
  memContains : Address → Bool
  memGet : Nat → Address
  memCount : Nat
  registeredClient : Option Nat

/-- The delegate's registration hook: record the forwarded client. -/
def ValidatorSafeContract.register_contract (self : ValidatorSafeContract)
    (clientTag : Nat) : ValidatorSafeContract :=
  { self with registeredClient := some clientTag }

/-- The decorator state: the delegate and the guarded optional provider.
The `RwLock` disappears in this sequential model; `provider` is the
content of the slot. -/
structure ValidatorContract where
  validators : ValidatorSafeContract
  provider : Option ProviderContract

/-- `ValidatorContract::new(contract_address)`: the provider slot starts
empty (`RwLock::new(None)`).  The source builds the delegate via
`ValidatorSafeContract::new(contract_address)`, whose internals are the
delegate's own; the constructed delegate is taken here as a parameter,
with its `address` field playing the role of `contract_address`. -/
def ValidatorContract.new (validators : ValidatorSafeContract) :
    ValidatorContract :=
  { validators := validators, provider := none }

/-- `contains`: forward to the delegate. -/
def ValidatorContract.contains (self : ValidatorContract) (address : Address) :
    Bool :=
  self.validators.memContains address

/-- `get`: forward to the delegate. -/
def ValidatorContract.get (self : ValidatorContract) (nonce : Nat) : Address :=
  self.validators.memGet nonce

/-- `count`: forward to the delegate. -/
def ValidatorContract.count (self : ValidatorContract) : Nat :=
  self.validators.memCount

/-- `ValidatorContract::report_malicious` (lines 55–64): read the provider
slot; if present, invoke the provider and log `warn!` either
`"Reported malicious validator {address}"` or
`"Validator {address} could not be reported {s}"`; if absent, log `warn!`
`"Malicious behaviour could not be reported: no provider contract."`.
Returns the log lines emitted and the transport invocations performed;
the method takes `&self` and only ever reads the lock, so there is no
state to return. -/
def ValidatorContract.report_malicious (self : ValidatorContract)
    (address : Address) : List LogEntry × List CallEvent :=
  match self.provider with
  | some provider =>
    match provider.report_malicious address with
    | (.ok _, evs) =>
      ([⟨.warn, "Reported malicious validator " ++ address.hex⟩], evs)
    | (.error s, evs) =>
      ([⟨.warn, "Validator " ++ address.hex ++ " could not be reported " ++ s⟩],
       evs)
  | none =>
    ([⟨.warn, "Malicious behaviour could not be reported: no provider contract."⟩],
     [])

/-- `ValidatorContract::report_benign` (lines 66–75): same shape, with the
success line `"Reported benign validator misbehaviour {address}"` and the
absent-provider line
`"Benign misbehaviour could not be reported: no provider contract."`. -/
def ValidatorContract.report_benign (self : ValidatorContract)
    (address : Address) : List LogEntry × List CallEvent :=
  match self.provider with
  | some provider =>
    match provider.report_benign address with
    | (.ok _, evs) =>
      ([⟨.warn, "Reported benign validator misbehaviour " ++ address.hex⟩], evs)
    | (.error s, evs) =>
      ([⟨.warn, "Validator " ++ address.hex ++ " could not be reported " ++ s⟩],
       evs)
  | none =>
    ([⟨.warn, "Benign misbehaviour could not be reported: no provider contract."⟩],
     [])

/-- `ValidatorContract::register_contract` (lines 77–85): forward the weak
client to the delegate's hook, build the transacting closure over the
client, and overwrite the provider slot with a provider bound to the
delegate's contract address and that closure. -/
def ValidatorContract.register_contract (self : ValidatorContract)
    (client : ClientModel) : ValidatorContract :=
  let validators := self.validators.register_contract client.tag
  let transact : Transport := ⟨client.tag, transactClosure client⟩
  { validators := validators,
    provider := some (ProviderContract.new validators.address transact) }

/-! ## Operation sequences over the decorator -/

/-- The operations a consensus engine can drive the decorator with. -/
inductive Op where
  | containsQ (a : Address)
  | getQ (i : Nat)
  | countQ
  | reportMalicious (a : Address)
  | reportBenign (a : Address)
  | registerContract (client : ClientModel)

/-- Result of one operation: the successor state plus the log lines and
transport invocations it produced (query results are read off the state
directly via `contains`/`get`/`count`). -/
structure StepResult where
  state : ValidatorContract
  logs : List LogEntry
  events : List CallEvent

/-- One operation of the decorator.  Queries and reports take `&self` in
the source, so they leave the state unchanged; only `register_contract`
writes. -/
def ValidatorContract.step (self : ValidatorContract) : Op → StepResult
  | .containsQ _ => ⟨self, [], []⟩
  | .getQ _ => ⟨self, [], []⟩
  | .countQ => ⟨self, [], []⟩
  | .reportMalicious a =>
    ⟨self, (self.report_malicious a).1, (self.report_malicious a).2⟩
  | .reportBenign a =>
    ⟨self, (self.report_benign a).1, (self.report_benign a).2⟩
  | .registerContract client => ⟨self.register_contract client, [], []⟩

/-- Run a sequence of operations from a state. -/
def runOps (s : ValidatorContract) (ops : List Op) : ValidatorContract :=
  ops.foldl (fun st op => (st.step op).state) s

/-! ## Reduction lemmas -/

/-- The call data `reportMalicious` sends: selector, then the address
left-padded to the 32-byte ABI word. -/
def maliciousCallData (addr : Address) : List Nat :=
  reportMaliciousSelector ++ (List.replicate 12 0 ++ addr.bytes)

/-- The call data `reportBenign` sends. -/
def benignCallData (addr : Address) : List Nat :=
  reportBenignSelector ++ (List.replicate 12 0 ++ addr.bytes)

theorem provider_report_malicious_eq (a : Address) (t : Transport) (v : Address) :
    (ProviderContract.new a t).report_malicious v =
      ((match t.run a (maliciousCallData v) with
        | .error e => .error e
        | .ok _ => .ok ()),
       [⟨t.tag, a, maliciousCallData v⟩]) := by
  unfold ProviderContract.report_malicious ProviderContract.new abiFunctionLookup
    providerInterface
  simp [AbiFunction.encode_call, Token.typeOf, maliciousCallData, encodeToken,
    AbiFunction.decode_output, decodeParams]
  split <;> simp_all

theorem provider_report_benign_eq (a : Address) (t : Transport) (v : Address) :
    (ProviderContract.new a t).report_benign v =
      ((match t.run a (benignCallData v) with
        | .error e => .error e
        | .ok _ => .ok ()),
       [⟨t.tag, a, benignCallData v⟩]) := by
  unfold ProviderContract.report_benign ProviderContract.new abiFunctionLookup
    providerInterface
  simp [AbiFunction.encode_call, Token.typeOf, benignCallData, encodeToken,
    AbiFunction.decode_output, decodeParams]
  split <;> simp_all

theorem register_provider_eq (s : ValidatorContract) (client : ClientModel) :
    (s.register_contract client).provider =
      some (ProviderContract.new s.validators.address
        ⟨client.tag, transactClosure client⟩) :=
  rfl

theorem register_report_malicious_run (s : ValidatorContract)
    (client : ClientModel) (v : Address) :
    (s.register_contract client).report_malicious v =
      ((match transactClosure client s.validators.address (maliciousCallData v) with
        | .error e =>
          [⟨.warn, "Validator " ++ v.hex ++ " could not be reported " ++ e⟩]
        | .ok _ => [⟨.warn, "Reported malicious validator " ++ v.hex⟩]),
       [⟨client.tag, s.validators.address, maliciousCallData v⟩]) := by
  unfold ValidatorContract.report_malicious
  rw [register_provider_eq]
  simp only [provider_report_malicious_eq]
  cases htc : transactClosure client s.validators.address (maliciousCallData v) <;>
    simp [htc]

theorem register_report_benign_run (s : ValidatorContract)
    (client : ClientModel) (v : Address) :
    (s.register_contract client).report_benign v =
      ((match transactClosure client s.validators.address (benignCallData v) with
        | .error e =>
          [⟨.warn, "Validator " ++ v.hex ++ " could not be reported " ++ e⟩]
        | .ok _ => [⟨.warn, "Reported benign validator misbehaviour " ++ v.hex⟩]),
       [⟨client.tag, s.validators.address, benignCallData v⟩]) := by
  unfold ValidatorContract.report_benign
  rw [register_provider_eq]
  simp only [provider_report_benign_eq]
  cases htc : transactClosure client s.validators.address (benignCallData v) <;>
    simp [htc]

/-- Every report call emits exactly one log line, always at `warn` level,
whatever the provider slot holds and whatever the transport does. -/
theorem report_malicious_one_warn (s : ValidatorContract) (v : Address) :
    ∃ msg, (s.report_malicious v).1 = [⟨.warn, msg⟩] := by
  unfold ValidatorContract.report_malicious
  rcases s.provider with _ | p
  · exact ⟨_, rfl⟩
  · rcases h : p.report_malicious v with ⟨r, evs⟩
    cases r <;> simp [h]

theorem report_benign_one_warn (s : ValidatorContract) (v : Address) :
    ∃ msg, (s.report_benign v).1 = [⟨.warn, msg⟩] := by
  unfold ValidatorContract.report_benign
  rcases s.provider with _ | p
  · exact ⟨_, rfl⟩
  · rcases h : p.report_benign v with ⟨r, evs⟩
    cases r <;> simp [h]

/-- A step never empties the provider slot. -/
theorem step_preserves_provider (s : ValidatorContract) (op : Op)
    (h : s.provider.isSome = true) :
    ((s.step op).state).provider.isSome = true := by
  cases op <;> simp [ValidatorContract.step, register_provider_eq, h]

theorem runOps_preserves_provider (ops : List Op) (s : ValidatorContract)
    (h : s.provider.isSome = true) :
    (runOps s ops).provider.isSome = true := by
  induction ops generalizing s with
  | nil => exact h
  | cons op ops ih =>
    exact ih _ (step_preserves_provider s op h)

theorem runOps_append (s : ValidatorContract) (l₁ l₂ : List Op) :
    runOps s (l₁ ++ l₂) = runOps (runOps s l₁) l₂ :=
  List.foldl_append ..

/-- A successful transport-closure invocation always yields the empty byte
vector (the submission result is discarded). -/
theorem transactClosure_ok_empty (client : ClientModel) (a : Address)
    (d : List Nat) (out : List Nat)
    (h : transactClosure client a d = .ok out) : out = [] := by
  unfold transactClosure at h
  cases halive : client.alive <;> simp [halive] at h
  cases ht : client.transact a d <;> simp [ht] at h
  exact h

/-- Registration is idempotent in the strong sense: a second registration
rebuilds the whole state from the second client alone. -/
theorem register_lastwrite (s : ValidatorContract) (c₁ c₂ : ClientModel) :
    (s.register_contract c₁).register_contract c₂ = s.register_contract c₂ :=
  rfl

theorem containsSubstr_of_eq (s pre sub post : String)
    (h : s = pre ++ sub ++ post) : containsSubstr s sub :=
  ⟨pre, post, h⟩

theorem containsSubstr_append_left (a b sub : String)
    (h : containsSubstr a sub) : containsSubstr (a ++ b) sub := by
  obtain ⟨pre, post, rfl⟩ := h
  exact ⟨pre, post ++ b, by rw [String.append_assoc]⟩

theorem containsSubstr_self_append (a sub : String) :
    containsSubstr (a ++ sub) sub :=
  ⟨a, "", (String.append_empty (a ++ sub)).symm⟩

/-! ## Concrete fixtures (the addresses of the repository's own test) -/

/-- The validator contract address `0x…05`. -/
def contractAddr : Address :=
  ⟨[0, 0, 0, 0, 0, 0, 0, 0, 0, 0, 0, 0, 0, 0, 0, 0, 0, 0, 0, 5], rfl⟩

/-- Validator `0x7d577a597b2742b498cb5cf0c26cdcd726d39e6e`. -/
def vAddr1 : Address :=
  ⟨[0x7d, 0x57, 0x7a, 0x59, 0x7b, 0x27, 0x42, 0xb4, 0x98, 0xcb,
    0x5c, 0xf0, 0xc2, 0x6c, 0xdc, 0xd7, 0x26, 0xd3, 0x9e, 0x6e], rfl⟩

/-- Validator `0x82a978b3f5962a5b0957d9ee9eef472ee55b42f1`. -/
def vAddr2 : Address :=
  ⟨[0x82, 0xa9, 0x78, 0xb3, 0xf5, 0x96, 0x2a, 0x5b, 0x09, 0x57,
    0xd9, 0xee, 0x9e, 0xef, 0x47, 0x2e, 0xe5, 0x5b, 0x42, 0xf1], rfl⟩

/-- A live client whose submissions succeed. -/
def okClient : ClientModel := ⟨1, true, fun _ _ => .ok 0⟩

/-- A dropped client: `Weak::upgrade` fails. -/
def deadClient : ClientModel := ⟨2, false, fun _ _ => .ok 0⟩

/-- A live client whose submissions are rejected. -/
def rejectClient : ClientModel := ⟨3, true, fun _ _ => .error "Old nonce"⟩

/-- A second live client, for re-registration scenarios. -/
def okClient2 : ClientModel := ⟨4, true, fun _ _ => .ok 7⟩

/-- A delegate over the two test validators. -/
def testDelegate : ValidatorSafeContract :=
  ⟨contractAddr, fun a => a == vAddr1 || a == vAddr2, fun _ => vAddr1, 2, none⟩

/-! ## The claims -/

/-- C1: for every address and every outcome of the bound transport,
`report_malicious` and `report_benign` return normally — every call yields
exactly one `warn`-level log line and no error value escapes — and a
transport-level failure produces exactly one warning entry containing both
the reported address and the error text. -/
theorem c1_reports_swallow_transport_failures
    (s : ValidatorContract) (client : ClientModel) (v : Address) (e eb : String)
    (hm : transactClosure client s.validators.address (maliciousCallData v) = .error e)
    (hb : transactClosure client s.validators.address (benignCallData v) = .error eb) :
    (∀ (u : ValidatorContract) (a : Address),
        (∃ m, (u.report_malicious a).1 = [⟨.warn, m⟩]) ∧
        (∃ m, (u.report_benign a).1 = [⟨.warn, m⟩])) ∧
    (s.register_contract client).report_malicious v =
      ([⟨.warn, "Validator " ++ v.hex ++ " could not be reported " ++ e⟩],
       [⟨client.tag, s.validators.address, maliciousCallData v⟩]) ∧
    (s.register_contract client).report_benign v =
      ([⟨.warn, "Validator " ++ v.hex ++ " could not be reported " ++ eb⟩],
       [⟨client.tag, s.validators.address, benignCallData v⟩]) ∧
    containsSubstr ("Validator " ++ v.hex ++ " could not be reported " ++ e) v.hex ∧
    containsSubstr ("Validator " ++ v.hex ++ " could not be reported " ++ e) e ∧
    containsSubstr ("Validator " ++ v.hex ++ " could not be reported " ++ eb) v.hex ∧
    containsSubstr ("Validator " ++ v.hex ++ " could not be reported " ++ eb) eb := by
  refine ⟨fun u a => ⟨report_malicious_one_warn u a, report_benign_one_warn u a⟩,
    ?_, ?_, ?_, ?_, ?_, ?_⟩
  · rw [register_report_malicious_run, hm]
  · rw [register_report_benign_run, hb]
  · exact containsSubstr_append_left _ _ _ (containsSubstr_append_left _ _ _
      (containsSubstr_self_append "Validator " v.hex))
  · exact containsSubstr_self_append _ e
  · exact containsSubstr_append_left _ _ _ (containsSubstr_append_left _ _ _
      (containsSubstr_self_append "Validator " v.hex))
  · exact containsSubstr_self_append _ eb

/-- Witness for C1: the dropped client makes the transport fail with
`"No client!"`, and the report still returns with the single warning. -/
theorem c1_reports_swallow_transport_failures_witness :
    ((ValidatorContract.new testDelegate).register_contract deadClient).report_malicious vAddr1 =
      ([⟨.warn, "Validator " ++ vAddr1.hex ++ " could not be reported " ++ "No client!"⟩],
       [⟨deadClient.tag, (ValidatorContract.new testDelegate).validators.address,
         maliciousCallData vAddr1⟩]) :=
  (c1_reports_swallow_transport_failures (ValidatorContract.new testDelegate)
    deadClient vAddr1 "No client!" "No client!" rfl rfl).2.1

/-- C2, counterexample: with a live client whose submission succeeds, the
provider calls return `Ok` and both decorator reports log their success
line — yet the (single) log entry is `warn`-level and no entry is
info-level, contradicting the claimed informational entry. -/
theorem c2_success_logs_info_counterexample :
    ((ProviderContract.new contractAddr ⟨1, transactClosure okClient⟩).report_malicious vAddr1).1 = .ok () ∧
    ((ProviderContract.new contractAddr ⟨1, transactClosure okClient⟩).report_benign vAddr1).1 = .ok () ∧
    ((((ValidatorContract.new testDelegate).register_contract okClient).report_malicious vAddr1).1 =
      [⟨.warn, "Reported malicious validator " ++ vAddr1.hex⟩]) ∧
    ((((ValidatorContract.new testDelegate).register_contract okClient).report_benign vAddr1).1 =
      [⟨.warn, "Reported benign validator misbehaviour " ++ vAddr1.hex⟩]) ∧
    (∀ l ∈ (((ValidatorContract.new testDelegate).register_contract okClient).report_malicious vAddr1).1,
      l.level ≠ LogLevel.info) ∧
    (∀ l ∈ (((ValidatorContract.new testDelegate).register_contract okClient).report_benign vAddr1).1,
      l.level ≠ LogLevel.info) :=
  ⟨rfl, rfl, by decide, by decide, by decide, by decide⟩

/-- C2 as amended: when the Reporter is present and its report call
succeeds, each report emits exactly one warning-level (not info-level) log
entry naming the reported address and the behavior kind. -/
theorem c2_success_logs_named_warning
    (s : ValidatorContract) (client : ClientModel) (v : Address)
    (om ob : List Nat)
    (hm : transactClosure client s.validators.address (maliciousCallData v) = .ok om)
    (hb : transactClosure client s.validators.address (benignCallData v) = .ok ob) :
    (s.register_contract client).report_malicious v =
      ([⟨.warn, "Reported malicious validator " ++ v.hex⟩],
       [⟨client.tag, s.validators.address, maliciousCallData v⟩]) ∧
    (s.register_contract client).report_benign v =
      ([⟨.warn, "Reported benign validator misbehaviour " ++ v.hex⟩],
       [⟨client.tag, s.validators.address, benignCallData v⟩]) ∧
    containsSubstr ("Reported malicious validator " ++ v.hex) v.hex ∧
    containsSubstr ("Reported malicious validator " ++ v.hex) "malicious" ∧
    containsSubstr ("Reported benign validator misbehaviour " ++ v.hex) v.hex ∧
    containsSubstr ("Reported benign validator misbehaviour " ++ v.hex) "benign" := by
  refine ⟨?_, ?_, ?_, ?_, ?_, ?_⟩
  · rw [register_report_malicious_run, hm]
  · rw [register_report_benign_run, hb]
  · exact containsSubstr_self_append _ v.hex
  · exact containsSubstr_append_left _ _ _
      ⟨"Reported ", " validator ", by decide⟩
  · exact containsSubstr_self_append _ v.hex
  · exact containsSubstr_append_left _ _ _
      ⟨"Reported ", " validator misbehaviour ", by decide⟩

/-- Witness for the amended C2 at the live, accepting client. -/
theorem c2_success_logs_named_warning_witness :
    ((ValidatorContract.new testDelegate).register_contract okClient).report_malicious vAddr1 =
      ([⟨.warn, "Reported malicious validator " ++ vAddr1.hex⟩],
       [⟨okClient.tag, (ValidatorContract.new testDelegate).validators.address,
         maliciousCallData vAddr1⟩]) :=
  (c2_success_logs_named_warning (ValidatorContract.new testDelegate)
    okClient vAddr1 [] [] rfl rfl).1

/-- C3: before any `register_contract`, both reports on any address return
normally, perform no transport call, and log exactly one warning noting
"no provider contract". -/
theorem c3_unregistered_reports (d : ValidatorSafeContract) (v : Address) :
    (ValidatorContract.new d).provider = none ∧
    (ValidatorContract.new d).report_malicious v =
      ([⟨.warn, "Malicious behaviour could not be reported: no provider contract."⟩], []) ∧
    (ValidatorContract.new d).report_benign v =
      ([⟨.warn, "Benign misbehaviour could not be reported: no provider contract."⟩], []) ∧
    containsSubstr "Malicious behaviour could not be reported: no provider contract."
      "no provider contract" ∧
    containsSubstr "Benign misbehaviour could not be reported: no provider contract."
      "no provider contract" :=
  ⟨rfl, rfl, rfl,
    ⟨"Malicious behaviour could not be reported: ", ".", by decide⟩,
    ⟨"Benign misbehaviour could not be reported: ", ".", by decide⟩⟩

/-- C4: after registration with a live client, each report hands the
transport the decorator's contract address and call data equal to the
4-byte selector followed by the address left-padded to the 32-byte ABI
word. -/
theorem c4_report_calldata (d : ValidatorSafeContract) (client : ClientModel)
    (v : Address) (halive : client.alive = true) :
    (((ValidatorContract.new d).register_contract client).report_malicious v).2 =
      [⟨client.tag, d.address,
        reportMaliciousSelector ++ (List.replicate (abiWordSize - 20) 0 ++ v.bytes)⟩] ∧
    (((ValidatorContract.new d).register_contract client).report_benign v).2 =
      [⟨client.tag, d.address,
        reportBenignSelector ++ (List.replicate (abiWordSize - 20) 0 ++ v.bytes)⟩] ∧
    reportMaliciousSelector.length = 4 ∧
    reportBenignSelector.length = 4 ∧
    (List.replicate (abiWordSize - 20) 0 ++ v.bytes).length = abiWordSize := by
  refine ⟨?_, ?_, rfl, rfl, ?_⟩
  · rw [register_report_malicious_run]
    simp [ValidatorContract.new, maliciousCallData, abiWordSize]
  · rw [register_report_benign_run]
    simp [ValidatorContract.new, benignCallData, abiWordSize]
  · simp [abiWordSize, v.len20]


/-- Witness for C4 at the live client and the repository's test validator. -/
theorem c4_report_calldata_witness :
    (((ValidatorContract.new testDelegate).register_contract okClient).report_malicious vAddr1).2 =
      [⟨okClient.tag, testDelegate.address,
        reportMaliciousSelector ++ (List.replicate (abiWordSize - 20) 0 ++ vAddr1.bytes)⟩] :=
  (c4_report_calldata testDelegate okClient vAddr1 rfl).1

/-- C5: `register_contract` is last-write-wins — a second registration
replaces the state wholesale, and every transport invocation of a
subsequent report carries the second client's tag, never the first's. -/
theorem c5_register_lastwrite (s : ValidatorContract) (c₁ c₂ : ClientModel)
    (v : Address) (hne : c₁.tag ≠ c₂.tag) :
    (s.register_contract c₁).register_contract c₂ = s.register_contract c₂ ∧
    (∀ ev ∈ (((s.register_contract c₁).register_contract c₂).report_malicious v).2,
      ev.tag = c₂.tag ∧ ev.tag ≠ c₁.tag) ∧
    (∀ ev ∈ (((s.register_contract c₁).register_contract c₂).report_benign v).2,
      ev.tag = c₂.tag ∧ ev.tag ≠ c₁.tag) := by
  refine ⟨register_lastwrite s c₁ c₂, ?_, ?_⟩
  · intro ev hev
    rw [register_lastwrite, register_report_malicious_run] at hev
    simp at hev
    exact ⟨by rw [hev], by rw [hev]; exact hne.symm⟩
  · intro ev hev
    rw [register_lastwrite, register_report_benign_run] at hev
    simp at hev
    exact ⟨by rw [hev], by rw [hev]; exact hne.symm⟩

/-- Witness for C5: re-registering with a second distinct client replaces
the state exactly as registering with it directly. -/
theorem c5_register_lastwrite_witness :
    ((ValidatorContract.new testDelegate).register_contract okClient).register_contract okClient2 =
      (ValidatorContract.new testDelegate).register_contract okClient2 :=
  (c5_register_lastwrite (ValidatorContract.new testDelegate) okClient okClient2
    vAddr1 (by decide)).1

/-- C6: with a dropped client, the transport closure fails with the fixed
`"No client!"` signal — for every contract address and call data, hence
without consulting the submission operation — and the decorator converts
this to the single warning log line rather than an escaping error. -/
theorem c6_dead_client_report (client : ClientModel)
    (hdead : client.alive = false) :
    (∀ (a : Address) (d : List Nat), transactClosure client a d = .error "No client!") ∧
    (∀ (s : ValidatorContract) (v : Address),
      (s.register_contract client).report_malicious v =
        ([⟨.warn, "Validator " ++ v.hex ++ " could not be reported " ++ "No client!"⟩],
         [⟨client.tag, s.validators.address, maliciousCallData v⟩]) ∧
      (s.register_contract client).report_benign v =
        ([⟨.warn, "Validator " ++ v.hex ++ " could not be reported " ++ "No client!"⟩],
         [⟨client.tag, s.validators.address, benignCallData v⟩])) := by
  have hclo : ∀ (a : Address) (d : List Nat),
      transactClosure client a d = .error "No client!" := by
    intro a d
    unfold transactClosure
    simp [hdead]
  refine ⟨hclo, fun s v => ⟨?_, ?_⟩⟩
  · rw [register_report_malicious_run, hclo]
  · rw [register_report_benign_run, hclo]

/-- Witness for C6 at the dropped client. -/
theorem c6_dead_client_report_witness :
    ((ValidatorContract.new testDelegate).register_contract deadClient).report_benign vAddr1 =
      ([⟨.warn, "Validator " ++ vAddr1.hex ++ " could not be reported " ++ "No client!"⟩],
       [⟨deadClient.tag, (ValidatorContract.new testDelegate).validators.address,
         benignCallData vAddr1⟩]) :=
  ((c6_dead_client_report deadClient rfl).2 (ValidatorContract.new testDelegate) vAddr1).2

/-- C7: from construction (Reporter absent), under any operation sequence,
once the provider slot is present it never becomes absent again. -/
theorem c7_provider_never_removed (d : ValidatorSafeContract)
    (ops1 ops2 : List Op)
    (h : (runOps (ValidatorContract.new d) ops1).provider.isSome = true) :
    (ValidatorContract.new d).provider = none ∧
    (runOps (ValidatorContract.new d) (ops1 ++ ops2)).provider.isSome = true := by
  refine ⟨rfl, ?_⟩
  rw [runOps_append]
  exact runOps_preserves_provider ops2 _ h

/-- Witness for C7: register, then report and query; the provider stays
present. -/
theorem c7_provider_never_removed_witness :
    (runOps (ValidatorContract.new testDelegate)
      ([Op.registerContract okClient] ++
        [Op.reportMalicious vAddr1, Op.countQ])).provider.isSome = true :=
  (c7_provider_never_removed testDelegate [Op.registerContract okClient]
    [Op.reportMalicious vAddr1, Op.countQ] rfl).2

/-- C8: `contains`, `get` and `count` forward directly to the delegate and
are side-effect-free; `contains a` is true exactly when `a` is in the
delegate's current set. -/
theorem c8_queries_forward (s : ValidatorContract) (a : Address) (i : Nat) :
    s.contains a = s.validators.memContains a ∧
    s.get i = s.validators.memGet i ∧
    s.count = s.validators.memCount ∧
    (s.contains a = true ↔ a ∈ {x : Address | s.validators.memContains x = true}) ∧
    s.step (.containsQ a) = ⟨s, [], []⟩ ∧
    s.step (.getQ i) = ⟨s, [], []⟩ ∧
    s.step .countQ = ⟨s, [], []⟩ :=
  ⟨rfl, rfl, rfl, Iff.rfl, rfl, rfl, rfl⟩

/-- C9 (implicit): reports and queries never mutate the decorator — the
provider binding and the delegate are exactly what they were — so
`register_contract` is the only mutating operation. -/
theorem c9_reports_frame (s : ValidatorContract) (op : Op)
    (h : ∀ c : ClientModel, op ≠ Op.registerContract c) :
    (s.step op).state = s ∧
    (s.step op).state.provider = s.provider ∧
    (s.step op).state.validators = s.validators := by
  cases op with
  | registerContract c => exact absurd rfl (h c)
  | containsQ a => exact ⟨rfl, rfl, rfl⟩
  | getQ i => exact ⟨rfl, rfl, rfl⟩
  | countQ => exact ⟨rfl, rfl, rfl⟩
  | reportMalicious a => exact ⟨rfl, rfl, rfl⟩
  | reportBenign a => exact ⟨rfl, rfl, rfl⟩

/-- Witness for C9 at a report operation in the registered state. -/
theorem c9_reports_frame_witness :
    (((ValidatorContract.new testDelegate).register_contract okClient).step
      (Op.reportMalicious vAddr1)).state =
      (ValidatorContract.new testDelegate).register_contract okClient :=
  (c9_reports_frame ((ValidatorContract.new testDelegate).register_contract okClient)
    (Op.reportMalicious vAddr1) (fun _ hc => nomatch hc)).1

/-- C10 (implicit): the transport closure discards the submission result
and returns the empty byte sequence on success; hence whenever submission
succeeds, `decode_output` receives empty bytes and decoding against the
empty output schema succeeds, whatever the client returned. -/
theorem c10_closure_discards_result (client : ClientModel)
    (halive : client.alive = true) :
    (∀ (a : Address) (d : List Nat) (r : Nat), client.transact a d = .ok r →
      transactClosure client a d = .ok []) ∧
    (∀ (addr v : Address) (out : List Nat),
      transactClosure client addr (maliciousCallData v) = .ok out →
      out = [] ∧
      ((ProviderContract.new addr ⟨client.tag, transactClosure client⟩).report_malicious v).1 =
        .ok ()) ∧
    (∀ (addr v : Address) (out : List Nat),
      transactClosure client addr (benignCallData v) = .ok out →
      out = [] ∧
      ((ProviderContract.new addr ⟨client.tag, transactClosure client⟩).report_benign v).1 =
        .ok ()) ∧
    (∀ f : AbiFunction, f.outputs = [] → f.decode_output [] = .ok []) := by
  refine ⟨?_, ?_, ?_, ?_⟩
  · intro a d r hok
    unfold transactClosure
    simp [halive, hok]
  · intro addr v out hout
    refine ⟨transactClosure_ok_empty client addr _ out hout, ?_⟩
    rw [provider_report_malicious_eq]
    simp [hout]
  · intro addr v out hout
    refine ⟨transactClosure_ok_empty client addr _ out hout, ?_⟩
    rw [provider_report_benign_eq]
    simp [hout]
  · intro f hf
    simp [AbiFunction.decode_output, hf, decodeParams]

/-- Witness for C10 at the live, accepting client. -/
theorem c10_closure_discards_result_witness :
    transactClosure okClient contractAddr (maliciousCallData vAddr1) = .ok [] :=
  (c10_closure_discards_result okClient rfl).1 contractAddr
    (maliciousCallData vAddr1) 0 rfl

end Parity
